import Mathlib

/-!
Verification of the V Knows Cars out-the-door calculator.

The development shallowly embeds the pricing and tax-resolution engine of the
repository (config.js, calculator.js, dp-calculator.js) into Lean.  JavaScript
numbers are modelled as exact rationals; JavaScript objects used as maps are
modelled as functions into `Option`; JavaScript truthiness tests on strings and
numbers are made explicit by small helper functions.
-/

/-- Result record returned by `IllinoisSalesTaxLookup.getTaxRate` (config.js). -/
structure TaxResult where
  rate : ℚ
  location : String
  county : Option String
  isEstimate : Bool
deriving Repr, DecidableEq

/-- The loaded tax document (il_sales_tax_lookup.json): list of Chicago ZIP
strings, ZIP to county map, county to rate map.  Absent JSON fields behave as
the empty list / empty map, matching the falsiness guards in the source. -/
structure TaxData where
  chicagoZips : List String
  zipToCounty : String → Option String
  countyRates : String → Option ℚ

/-- The mutable fields of the `IllinoisSalesTaxLookup` instance. -/
structure LookupState where
  loaded : Bool
  data : Option TaxData

/-- JavaScript `x || d` on a looked-up numeric rate: an absent or zero (falsy)
value falls back to the literal default. -/
def jsOrRate (o : Option ℚ) (dflt : ℚ) : ℚ :=
  match o with
  | some r => if r = 0 then dflt else r
  | none => dflt

/-- JavaScript truthiness filter for a looked-up string: `undefined` and the
empty string are falsy. -/
def jsTruthyStr (o : Option String) : Option String :=
  match o with
  | some c => if c = "" then none else some c
  | none => none

/-- JavaScript truthiness filter for a looked-up number: `undefined` and `0`
are falsy. -/
def jsTruthyRate (o : Option ℚ) : Option ℚ :=
  match o with
  | some r => if r = 0 then none else some r
  | none => none

/-- JavaScript `s.trim()`: strip leading and trailing whitespace. -/
def strTrim (s : String) : String :=
  String.mk (((s.toList.dropWhile Char.isWhitespace).reverse.dropWhile
    Char.isWhitespace).reverse)

/-- JavaScript `s.startsWith(p)`. -/
def strStartsWith (s p : String) : Bool :=
  p.toList.isPrefixOf s.toList

/-- JavaScript `s.slice(0, n)`. -/
def strTake (s : String) (n : ℕ) : String :=
  String.mk (s.toList.take n)

/-- JavaScript `s.slice(n)`. -/
def strDrop (s : String) (n : ℕ) : String :=
  String.mk (s.toList.drop n)

/-- JavaScript `s.charAt(0).toUpperCase()`. -/
def jsUpperFirst (s : String) : String :=
  match s.toList with
  | [] => ""
  | c :: _ => String.mk [c.toUpper]

/-- JavaScript `s.toLowerCase()`. -/
def strLower (s : String) : String :=
  String.mk (s.toList.map Char.toLower)

/-- The normalisation `String(zipCode).trim().slice(0, 5)` from `getTaxRate`. -/
def normZip (zip : String) : String :=
  strTake (strTrim zip) 5

/-- Function `_getCountyByPrefix` from config.js: the literal three-digit table
(the 606 Chicago-proper block is deliberately absent from the source map). -/
def countyByZip3 (p : String) : Option String :=
  if p = "600" then some "COOK"
  else if p = "601" then some "COOK"
  else if p = "602" then some "COOK"
  else if p = "603" then some "COOK"
  else if p = "604" then some "COOK"
  else if p = "605" then some "COOK"
  else if p = "607" then some "COOK"
  else if p = "608" then some "COOK"
  else if p = "610" then some "WINNEBAGO"
  else if p = "611" then some "WINNEBAGO"
  else if p = "618" then some "CHAMPAIGN"
  else if p = "620" then some "MADISON"
  else if p = "621" then some "MADISON"
  else if p = "622" then some "SAINT_CLAIR"
  else if p = "627" then some "SANGAMON"
  else if p = "623" then some "DEFAULT"
  else if p = "624" then some "DEFAULT"
  else if p = "625" then some "DEFAULT"
  else if p = "626" then some "DEFAULT"
  else if p = "628" then some "DEFAULT"
  else if p = "629" then some "DEFAULT"
  else none

/-- Function `_formatCountyName` from config.js. -/
def formatCountyName (c : String) : String :=
  if c = "" then "Illinois"
  else if c = "SAINT_CLAIR" then "St. Clair County"
  else if c = "COOK_CHICAGO" then "Chicago"
  else if c = "COOK" then "Cook County"
  else if c = "ROCK_ISLAND" then "Rock Island County"
  else if c = "DEFAULT" then "Illinois"
  else if strStartsWith c "MC" then
    "Mc" ++ jsUpperFirst (strDrop c 2) ++ strLower (strDrop c 3) ++ " County"
  else jsUpperFirst c ++ strLower (strDrop c 1) ++ " County"

/-- The JavaScript condition `county && this.data.countyRates[county]` applied
to a county candidate: both the county string and its rate must be truthy. -/
def countyRateHit (d : TaxData) (o : Option String) : Option (String × ℚ) :=
  match jsTruthyStr o with
  | some c =>
    match jsTruthyRate (d.countyRates c) with
    | some r => some (c, r)
    | none => none
  | none => none

/-- Resolution rule 2 of `getTaxRate`: direct ZIP lookup. -/
def zipMapHit (d : TaxData) (zip : String) : Option (String × ℚ) :=
  countyRateHit d (d.zipToCounty (normZip zip))

/-- Resolution rule 3 of `getTaxRate`: three-digit ZIP-prefix lookup. -/
def zip3Hit (d : TaxData) (zip : String) : Option (String × ℚ) :=
  countyRateHit d (countyByZip3 (strTake (normZip zip) 3))

/-- The rule-1 result of `getTaxRate` (Chicago ZIP list membership). -/
def chicagoTaxResult (d : TaxData) : TaxResult :=
  { rate := jsOrRate (d.countyRates "COOK_CHICAGO") 0.095
    location := "Chicago"
    county := some "COOK"
    isEstimate := false }

/-- The rule-2/rule-3 result of `getTaxRate` (a county matched with rate). -/
def countyTaxResult (c : String) (r : ℚ) : TaxResult :=
  { rate := r
    location := formatCountyName c
    county := some c
    isEstimate := false }

/-- The rule-4 fallback result of `getTaxRate` (ZIP not found). -/
def defaultTaxResult (d : TaxData) : TaxResult :=
  { rate := jsOrRate (d.countyRates "DEFAULT") 0.0625
    location := "Illinois"
    county := none
    isEstimate := true }

/-- The result `getTaxRate` returns before the table has loaded. -/
def unloadedTaxResult : TaxResult :=
  { rate := 0.0625
    location := "Illinois"
    county := none
    isEstimate := true }

/-- Method `IllinoisSalesTaxLookup.getTaxRate` from config.js. -/
def getTaxRate (st : LookupState) (zip : String) : TaxResult :=
  if st.loaded = false then unloadedTaxResult
  else
    match st.data with
    | none => unloadedTaxResult
    | some d =>
      if d.chicagoZips.contains (normZip zip) then chicagoTaxResult d
      else
        match zipMapHit d zip with
        | some (c, r) => countyTaxResult c r
        | none =>
          match zip3Hit d zip with
          | some (c, r) => countyTaxResult c r
          | none => defaultTaxResult d

/-- Modelled from the spec: the contents of `il_sales_tax_lookup.json`, which
is loaded at runtime and is not under src/.  County rates follow the spec and
the deployment notes (Chicago 9.50 percent, suburban Cook 8.25 percent,
collar counties 7.25 percent, statewide default 6.25 percent); the ZIP map
carries the documented explicit entries. -/
def ilSalesTaxData : TaxData :=
  { chicagoZips := ["60601"]
    zipToCounty := fun z =>
      if z = "60025" then some "COOK"
      else if z = "60010" then some "LAKE"
      else none
    countyRates := fun c =>
      if c = "COOK_CHICAGO" then some 0.095
      else if c = "COOK" then some 0.0825
      else if c = "LAKE" then some 0.0725
      else if c = "WINNEBAGO" then some 0.0725
      else if c = "CHAMPAIGN" then some 0.0725
      else if c = "MADISON" then some 0.0725
      else if c = "SAINT_CLAIR" then some 0.0725
      else if c = "SANGAMON" then some 0.0625
      else if c = "DEFAULT" then some 0.0625
      else none }

/-- One configured fee from `CONFIG.fees` (config.js). -/
structure Fee where
  name : String
  amount : ℚ
  taxable : Bool
deriving Repr, DecidableEq

/-- Entry `CONFIG.fees.docPrep` from config.js. -/
def feesDocPrep : Fee := { name := "Doc Fee", amount := 377, taxable := false }

/-- Entry `CONFIG.fees.ert` from config.js. -/
def feesErt : Fee := { name := "ERT Fee", amount := 35, taxable := true }

/-- Entry `CONFIG.fees.title` from config.js. -/
def feesTitle : Fee := { name := "Title Fee", amount := 165, taxable := false }

/-- Entry `CONFIG.fees.registration` from config.js. -/
def feesRegistration : Fee := { name := "Registration", amount := 151, taxable := false }

/-- Entry `CONFIG.fees.cookCounty` from config.js. -/
def feesCookCounty : Fee := { name := "Cook County Clerk Fee", amount := 15, taxable := false }

/-- The five configured fees of `CONFIG.fees`, in source order. -/
def configFees : List Fee :=
  [feesDocPrep, feesErt, feesTitle, feesRegistration, feesCookCounty]

/-- Value `CONFIG.defaultTaxRate` from config.js. -/
def defaultTaxRate : ℚ := 0.0625

/-- The four credit tiers of `CONFIG.creditTiers`. -/
inductive CreditTier
  | excellent
  | good
  | fair
  | poor
deriving Repr, DecidableEq

/-- Table `CONFIG.creditTiers[tier].rates[term]` from config.js.  The table defines
rates only for the six terms of `CONFIG.loanTerms`; the engine never asks for
another term (the JavaScript lookup would be undefined there, modelled as 0). -/
def creditTierRate (t : CreditTier) (term : ℕ) : ℚ :=
  match t, term with
  | .excellent, 24 => 4.99
  | .excellent, 36 => 5.49
  | .excellent, 48 => 5.99
  | .excellent, 60 => 6.49
  | .excellent, 72 => 6.99
  | .excellent, 84 => 7.49
  | .good, 24 => 6.99
  | .good, 36 => 7.49
  | .good, 48 => 7.99
  | .good, 60 => 8.49
  | .good, 72 => 8.99
  | .good, 84 => 9.49
  | .fair, 24 => 9.99
  | .fair, 36 => 10.49
  | .fair, 48 => 10.99
  | .fair, 60 => 11.49
  | .fair, 72 => 11.99
  | .fair, 84 => 12.49
  | .poor, 24 => 14.99
  | .poor, 36 => 15.49
  | .poor, 48 => 15.99
  | .poor, 60 => 16.49
  | .poor, 72 => 16.99
  | .poor, 84 => 17.49
  | _, _ => 0

/-- List `CONFIG.loanTerms` from config.js. -/
def loanTerms : List ℕ := [24, 36, 48, 60, 72, 84]

/-- One user-added add-on (`state.addons` entry in calculator.js). -/
structure Addon where
  id : String
  name : String
  price : ℚ
  taxable : Bool
deriving Repr, DecidableEq

/-- One user-added discount (`state.discounts` entry in calculator.js). -/
structure DiscountItem where
  id : String
  name : String
  amount : ℚ
deriving Repr, DecidableEq

/-- One promotional APR override (`state.specialAprs` entry). -/
structure SpecialApr where
  term : ℕ
  rate : ℚ
deriving Repr, DecidableEq

/-- The calculator `state` object (calculator.js), restricted to the fields
the computation engine reads. -/
structure CalcState where
  vehiclePrice : ℚ
  zipCode : String
  taxRate : ℚ
  isCookCounty : Bool
  tradeValue : ℚ
  tradeOwed : ℚ
  addons : List Addon
  discounts : List DiscountItem
  specialAprs : List SpecialApr
  creditTier : CreditTier
  downPayment : ℚ
  selectedTerm : ℕ
deriving Repr

/-- Result of `getAprForTerm` (calculator.js). -/
structure AprInfo where
  rate : ℚ
  isSpecial : Bool
deriving Repr, DecidableEq

/-- Function `getAprForTerm` from calculator.js: a special promotional rate for the
exact term wins, otherwise the credit-tier table applies. -/
def getAprForTerm (s : CalcState) (term : ℕ) : AprInfo :=
  match s.specialAprs.find? (fun a => a.term == term) with
  | some a => { rate := a.rate, isSpecial := true }
  | none => { rate := creditTierRate s.creditTier term, isSpecial := false }

/-- Function `calculateMonthlyPayment` from calculator.js.  In the exact-rational
model the only singularity of the annuity formula is a zero denominator,
where Lean division yields 0 — the same value the JavaScript guard
`isFinite(payment) ? payment : 0` substitutes for a non-finite result. -/
def calculateMonthlyPayment (principal annualRate : ℚ) (termMonths : ℕ) : ℚ :=
  if principal ≤ 0 then 0
  else
    let monthlyRate := annualRate / 100 / 12
    if monthlyRate = 0 then principal / termMonths
    else
      principal * (monthlyRate * (1 + monthlyRate) ^ termMonths) /
        ((1 + monthlyRate) ^ termMonths - 1)

/-- Sum of `addon.price` over the taxable add-ons (calculator.js step 2). -/
def addonTaxableSum (l : List Addon) : ℚ :=
  ((l.filter fun a => a.taxable).map fun a => a.price).sum

/-- Sum of `addon.price` over the non-taxable add-ons (calculator.js step 2). -/
def addonNonTaxableSum (l : List Addon) : ℚ :=
  ((l.filter fun a => !a.taxable).map fun a => a.price).sum

/-- Sum of `discount.amount` over the applied discounts (calculator.js step 1). -/
def discountSum (l : List DiscountItem) : ℚ :=
  (l.map fun d => d.amount).sum

/-- The scalar fields of the results object built by `calculate`
(calculator.js); the per-term payment table is `calcPayment`. -/
structure CalcResults where
  sellingPrice : ℚ
  totalDiscounts : ℚ
  taxableAddons : ℚ
  nonTaxableAddons : ℚ
  totalAddons : ℚ
  vehicleSubtotal : ℚ
  taxableFees : ℚ
  nonTaxableFees : ℚ
  taxableBeforeTrade : ℚ
  tradeValue : ℚ
  tradeOwed : ℚ
  tradeEquity : ℚ
  taxableAmount : ℚ
  taxRate : ℚ
  salesTax : ℚ
  tradeTaxSavings : ℚ
  totalBeforeTrade : ℚ
  outTheDoor : ℚ
  amountToFinance : ℚ
deriving Repr, DecidableEq

/-- Function `calculate` from calculator.js, steps 1 through 11. -/
def calculate (s : CalcState) : CalcResults :=
  let totalDiscounts := discountSum s.discounts
  let sellingPrice := max 0 (s.vehiclePrice - totalDiscounts)
  let taxableAddons := addonTaxableSum s.addons
  let nonTaxableAddons := addonNonTaxableSum s.addons
  let totalAddons := taxableAddons + nonTaxableAddons
  let vehicleSubtotal := sellingPrice + totalAddons
  let taxableFees := feesDocPrep.amount + feesErt.amount
  let nonTaxableFees := feesTitle.amount + feesRegistration.amount +
    (if s.isCookCounty then feesCookCounty.amount else 0)
  let taxableBeforeTrade := sellingPrice + taxableAddons + taxableFees
  let tradeEquity := s.tradeValue - s.tradeOwed
  let taxableAmount := max 0 (taxableBeforeTrade - s.tradeValue)
  let salesTax := taxableAmount * s.taxRate
  let tradeTaxSavings := min s.tradeValue taxableBeforeTrade * s.taxRate
  let totalBeforeTrade := vehicleSubtotal + taxableFees + salesTax + nonTaxableFees
  let outTheDoor := totalBeforeTrade - tradeEquity
  let amountToFinance := max 0 (outTheDoor - s.downPayment)
  { sellingPrice := sellingPrice
    totalDiscounts := totalDiscounts
    taxableAddons := taxableAddons
    nonTaxableAddons := nonTaxableAddons
    totalAddons := totalAddons
    vehicleSubtotal := vehicleSubtotal
    taxableFees := taxableFees
    nonTaxableFees := nonTaxableFees
    taxableBeforeTrade := taxableBeforeTrade
    tradeValue := s.tradeValue
    tradeOwed := s.tradeOwed
    tradeEquity := tradeEquity
    taxableAmount := taxableAmount
    taxRate := s.taxRate
    salesTax := salesTax
    tradeTaxSavings := tradeTaxSavings
    totalBeforeTrade := totalBeforeTrade
    outTheDoor := outTheDoor
    amountToFinance := amountToFinance }

/-- One row of the per-term payment table (calculator.js step 12). -/
structure PaymentInfo where
  apr : ℚ
  isSpecial : Bool
  payment : ℚ
  totalPayments : ℚ
  totalInterest : ℚ
deriving Repr, DecidableEq

/-- The body of the `terms.forEach` loop in `calculate` (calculator.js step
12): the payment table entry for one term. -/
def calcPayment (s : CalcState) (term : ℕ) : PaymentInfo :=
  let aprInfo := getAprForTerm s term
  let payment := calculateMonthlyPayment (calculate s).amountToFinance aprInfo.rate term
  { apr := aprInfo.rate
    isSpecial := aprInfo.isSpecial
    payment := payment
    totalPayments := payment * term
    totalInterest := payment * term - (calculate s).amountToFinance }

/-- The loan-side fields computed by `dpCalculate` (dp-calculator.js lines
23 to 36); the investment-growth fields are consumed by the verdict through
`DpVerdictInput` below. -/
structure DpLoanResult where
  totalAmountDue : ℚ
  downPayment : ℚ
  amountFinanced : ℚ
  cashInvested : ℚ
  monthlyPayment : ℚ
  totalPayments : ℚ
  totalInterest : ℚ
deriving Repr, DecidableEq

/-- The loan side of `dpCalculate` from dp-calculator.js: the down payment is
clamped to the total due, the amount financed is floored at zero, the cash
assumed invested is the un-floored difference, and the total interest is
floored at zero.  (`aprInfo.apr` is undefined on the object returned by
`getAprForTerm`, so the JavaScript fallback always selects `aprInfo.rate`.) -/
def dpCalculateLoan (s : CalcState) : DpLoanResult :=
  let otd := calculate s
  let term := s.selectedTerm
  let totalAmountDue := otd.outTheDoor
  let downPayment := min s.downPayment totalAmountDue
  let amountFinanced := max 0 (totalAmountDue - downPayment)
  let cashInvested := totalAmountDue - downPayment
  let apr := (getAprForTerm s term).rate
  let monthly := calculateMonthlyPayment amountFinanced apr term
  { totalAmountDue := totalAmountDue
    downPayment := downPayment
    amountFinanced := amountFinanced
    cashInvested := cashInvested
    monthlyPayment := monthly
    totalPayments := monthly * term
    totalInterest := max 0 (monthly * term - amountFinanced) }

/-- The fields of the `dpCalculate` result record that `updateVerdict`
(dp-calculator.js) reads. -/
structure DpVerdictInput where
  cashInvested : ℚ
  amountFinanced : ℚ
  investmentValueNet : ℚ
  totalInterest : ℚ
deriving Repr, DecidableEq

/-- Function `updateVerdict` from dp-calculator.js as a pure decision: `none` means the
verdict badge is hidden, `some true` the financing-favorable message, and
`some false` the cash-down-favorable message. -/
def dpVerdict (v : DpVerdictInput) : Option Bool :=
  if v.cashInvested ≤ 0 ∨ v.amountFinanced ≤ 0 then none
  else some (decide (0 ≤ v.investmentValueNet - v.cashInvested - v.totalInterest))

/-- A representative calculator state used for concrete evaluations. -/
def baseState : CalcState :=
  { vehiclePrice := 30000
    zipCode := ""
    taxRate := defaultTaxRate
    isCookCounty := false
    tradeValue := 0
    tradeOwed := 0
    addons := []
    discounts := []
    specialAprs := []
    creditTier := .excellent
    downPayment := 0
    selectedTerm := 60 }

lemma getTaxRate_loaded (d : TaxData) (zip : String) :
    getTaxRate ⟨true, some d⟩ zip =
      if d.chicagoZips.contains (normZip zip) then chicagoTaxResult d
      else
        match zipMapHit d zip with
        | some (c, r) => countyTaxResult c r
        | none =>
          match zip3Hit d zip with
          | some (c, r) => countyTaxResult c r
          | none => defaultTaxResult d := rfl

lemma getTaxRate_rule1 (d : TaxData) (zip : String)
    (hchi : d.chicagoZips.contains (normZip zip) = true) :
    getTaxRate ⟨true, some d⟩ zip = chicagoTaxResult d := by
  rw [getTaxRate_loaded, if_pos hchi]

lemma getTaxRate_rule2 (d : TaxData) (zip : String) (c : String) (r : ℚ)
    (hchi : d.chicagoZips.contains (normZip zip) = false)
    (hhit : zipMapHit d zip = some (c, r)) :
    getTaxRate ⟨true, some d⟩ zip = countyTaxResult c r := by
  rw [getTaxRate_loaded, if_neg (by rw [hchi]; decide), hhit]

lemma getTaxRate_rule3 (d : TaxData) (zip : String) (c : String) (r : ℚ)
    (hchi : d.chicagoZips.contains (normZip zip) = false)
    (hmap : zipMapHit d zip = none)
    (hhit : zip3Hit d zip = some (c, r)) :
    getTaxRate ⟨true, some d⟩ zip = countyTaxResult c r := by
  rw [getTaxRate_loaded, if_neg (by rw [hchi]; decide), hmap, hhit]

lemma getTaxRate_rule4 (d : TaxData) (zip : String)
    (hchi : d.chicagoZips.contains (normZip zip) = false)
    (hmap : zipMapHit d zip = none)
    (h3 : zip3Hit d zip = none) :
    getTaxRate ⟨true, some d⟩ zip = defaultTaxResult d := by
  rw [getTaxRate_loaded, if_neg (by rw [hchi]; decide), hmap, h3]

lemma countyRateHit_some (d : TaxData) (c : String) (r : ℚ)
    (hc : c ≠ "") (hr : d.countyRates c = some r) (hr0 : r ≠ 0) :
    countyRateHit d (some c) = some (c, r) := by
  simp [countyRateHit, jsTruthyStr, jsTruthyRate, hc, hr, hr0]

lemma jsOrRate_bounds (o : Option ℚ) (dflt : ℚ)
    (h : ∀ r, o = some r → 0 ≤ r ∧ r ≤ 1) (h0 : 0 ≤ dflt) (h1 : dflt ≤ 1) :
    0 ≤ jsOrRate o dflt ∧ jsOrRate o dflt ≤ 1 := by
  cases o with
  | none => exact ⟨h0, h1⟩
  | some r =>
    simp only [jsOrRate]
    by_cases hr : r = 0
    · rw [if_pos hr]; exact ⟨h0, h1⟩
    · rw [if_neg hr]; exact h r rfl

lemma countyRateHit_rate (d : TaxData) (o : Option String) (c : String) (r : ℚ)
    (h : countyRateHit d o = some (c, r)) : d.countyRates c = some r := by
  unfold countyRateHit at h
  cases ho : jsTruthyStr o with
  | none => rw [ho] at h; cases h
  | some c2 =>
    rw [ho] at h
    dsimp only at h
    cases hr : jsTruthyRate (d.countyRates c2) with
    | none => rw [hr] at h; cases h
    | some r2 =>
      rw [hr] at h
      dsimp only at h
      simp only [Option.some.injEq, Prod.mk.injEq] at h
      obtain ⟨rfl, rfl⟩ := h
      unfold jsTruthyRate at hr
      cases hcr : d.countyRates c2 with
      | none => rw [hcr] at hr; cases hr
      | some x =>
        rw [hcr] at hr
        dsimp only at hr
        by_cases hx : x = 0
        · rw [if_pos hx] at hr; cases hr
        · rw [if_neg hx] at hr
          simp only [Option.some.injEq] at hr
          rw [hr]

/-- Claim C1: for every ZIP string and every lookup state (unloaded, loaded
with any table, or loaded with a degraded empty table), `getTaxRate` returns a
record whose rate is a well-defined rational in the interval zero to one,
provided every rate stored in the county-rate table lies in that interval; the
hard-coded fallback constants keep the result valid even when the table is
empty or misses entries. -/
theorem getTaxRate_rate_bounds (st : LookupState) (zip : String)
    (h : ∀ d c r, st.data = some d → d.countyRates c = some r → 0 ≤ r ∧ r ≤ 1) :
    0 ≤ (getTaxRate st zip).rate ∧ (getTaxRate st zip).rate ≤ 1 := by
  obtain ⟨lo, da⟩ := st
  cases lo with
  | false => norm_num [getTaxRate, unloadedTaxResult]
  | true =>
    cases da with
    | none => norm_num [getTaxRate, unloadedTaxResult]
    | some d =>
      have hrates : ∀ c r, d.countyRates c = some r → 0 ≤ r ∧ r ≤ 1 :=
        fun c r hr => h d c r rfl hr
      rw [getTaxRate_loaded]
      by_cases hchi : d.chicagoZips.contains (normZip zip) = true
      · rw [if_pos hchi]
        simp only [chicagoTaxResult]
        exact jsOrRate_bounds _ _ (fun r hr => hrates "COOK_CHICAGO" r hr)
          (by norm_num) (by norm_num)
      · rw [if_neg hchi]
        cases hm : zipMapHit d zip with
        | some p =>
          obtain ⟨c, r⟩ := p
          simp only [countyTaxResult]
          exact hrates c r (countyRateHit_rate d _ c r hm)
        | none =>
          cases h3 : zip3Hit d zip with
          | some p =>
            obtain ⟨c, r⟩ := p
            simp only [countyTaxResult]
            exact hrates c r (countyRateHit_rate d _ c r h3)
          | none =>
            simp only [defaultTaxResult]
            exact jsOrRate_bounds _ _ (fun r hr => hrates "DEFAULT" r hr)
              (by norm_num) (by norm_num)

/-- Concrete instance of `getTaxRate_rate_bounds`: the resolver is already
safe before the tax table has loaded. -/
theorem getTaxRate_rate_bounds_witness :
    0 ≤ (getTaxRate ⟨false, none⟩ "60601").rate ∧
      (getTaxRate ⟨false, none⟩ "60601").rate ≤ 1 :=
  getTaxRate_rate_bounds ⟨false, none⟩ "60601" (fun _ _ _ hd _ => by cases hd)

/-- Claim C2: on a loaded table, `getTaxRate` applies the four resolution
rules in order with first-match-wins semantics — Chicago ZIP list, exact
ZIP-to-county entry, three-digit-prefix entry, then the statewide default
with a null county — and `isEstimate` is true exactly in the no-match case. -/
theorem getTaxRate_first_match_rules (d : TaxData) (zip : String) :
    (d.chicagoZips.contains (normZip zip) = true →
      getTaxRate ⟨true, some d⟩ zip = chicagoTaxResult d) ∧
    (d.chicagoZips.contains (normZip zip) = false →
      ∀ c r, zipMapHit d zip = some (c, r) →
      getTaxRate ⟨true, some d⟩ zip = countyTaxResult c r) ∧
    (d.chicagoZips.contains (normZip zip) = false →
      zipMapHit d zip = none → ∀ c r, zip3Hit d zip = some (c, r) →
      getTaxRate ⟨true, some d⟩ zip = countyTaxResult c r) ∧
    (d.chicagoZips.contains (normZip zip) = false →
      zipMapHit d zip = none → zip3Hit d zip = none →
      getTaxRate ⟨true, some d⟩ zip = defaultTaxResult d) ∧
    ((getTaxRate ⟨true, some d⟩ zip).isEstimate = true ↔
      (d.chicagoZips.contains (normZip zip) = false ∧
        zipMapHit d zip = none ∧ zip3Hit d zip = none)) := by
  refine ⟨getTaxRate_rule1 d zip,
    fun hchi c r hhit => getTaxRate_rule2 d zip c r hchi hhit,
    fun hchi hmap c r hhit => getTaxRate_rule3 d zip c r hchi hmap hhit,
    getTaxRate_rule4 d zip, ?_⟩
  by_cases hchi : d.chicagoZips.contains (normZip zip) = true
  · rw [getTaxRate_rule1 d zip hchi]
    simp only [chicagoTaxResult]
    constructor
    · intro hf; exact absurd hf (by decide)
    · rintro ⟨hc, -, -⟩; rw [hchi] at hc; exact absurd hc (by decide)
  · have hchi2 : d.chicagoZips.contains (normZip zip) = false :=
      Bool.not_eq_true _ |>.mp hchi
    cases hm : zipMapHit d zip with
    | some p =>
      obtain ⟨c, r⟩ := p
      rw [getTaxRate_rule2 d zip c r hchi2 hm]
      simp only [countyTaxResult]
      constructor
      · intro hf; exact absurd hf (by decide)
      · rintro ⟨-, hmm, -⟩; exact absurd hmm (by simp)
    | none =>
      cases h3 : zip3Hit d zip with
      | some p =>
        obtain ⟨c, r⟩ := p
        rw [getTaxRate_rule3 d zip c r hchi2 hm h3]
        simp only [countyTaxResult]
        constructor
        · intro hf; exact absurd hf (by decide)
        · rintro ⟨-, -, h33⟩; exact absurd h33 (by simp)
      | none =>
        rw [getTaxRate_rule4 d zip hchi2 hm h3]
        exact iff_of_true rfl ⟨hchi2, rfl, rfl⟩

/-- Concrete instance of `getTaxRate_first_match_rules`: ZIP 99999 matches no
rule, so the loaded resolver falls through to the statewide default result. -/
theorem getTaxRate_first_match_rules_witness :
    getTaxRate ⟨true, some ilSalesTaxData⟩ "99999" = defaultTaxResult ilSalesTaxData :=
  (getTaxRate_first_match_rules ilSalesTaxData "99999").2.2.2.1 (by decide)
    (by rw [zipMapHit, show ilSalesTaxData.zipToCounty (normZip "99999") = none from rfl]; rfl)
    (by rw [zip3Hit, show countyByZip3 (strTake (normZip "99999") 3) = none from rfl]; rfl)

/-- Claim C3: with the loaded Illinois table, ZIP 60025 (via the explicit
ZIP-to-county entry) and ZIP 60090 (via the 600 prefix rule) both resolve to
the suburban Cook County rate 0.0825 with county COOK and a non-estimate
result — neither a fictitious Wheeling County nor the Chicago city rate. -/
theorem resolve_60025_60090 :
    getTaxRate ⟨true, some ilSalesTaxData⟩ "60025" =
      { rate := 0.0825, location := "Cook County", county := some "COOK", isEstimate := false } ∧
    getTaxRate ⟨true, some ilSalesTaxData⟩ "60090" =
      { rate := 0.0825, location := "Cook County", county := some "COOK", isEstimate := false } := by
  constructor
  · have hmap : zipMapHit ilSalesTaxData "60025" = some ("COOK", 0.0825) := by
      rw [zipMapHit, show ilSalesTaxData.zipToCounty (normZip "60025") = some "COOK" from rfl]
      exact countyRateHit_some _ _ _ (by decide) rfl (by norm_num)
    rw [getTaxRate_rule2 ilSalesTaxData "60025" "COOK" 0.0825 (by decide) hmap]
    rfl
  · have hmap : zipMapHit ilSalesTaxData "60090" = none := by
      rw [zipMapHit, show ilSalesTaxData.zipToCounty (normZip "60090") = none from rfl]
      rfl
    have hhit : zip3Hit ilSalesTaxData "60090" = some ("COOK", 0.0825) := by
      rw [zip3Hit, show countyByZip3 (strTake (normZip "60090") 3) = some "COOK" from rfl]
      exact countyRateHit_some _ _ _ (by decide) rfl (by norm_num)
    rw [getTaxRate_rule3 ilSalesTaxData "60090" "COOK" 0.0825 (by decide) hmap hhit]
    rfl

/-- Claim C4 counterexample: with the shipped configuration the doc-prep fee
is flagged non-taxable, yet `calculate` hard-codes it into the taxable-fee
total, so the taxable-fee total (412) differs from the sum of the amounts of
the fees whose taxable flag is true (35, the ERT fee alone). -/
theorem taxableFees_flag_counterexample :
    (calculate baseState).taxableFees = 412 ∧
    ((configFees.filter fun f => f.taxable).map fun f => f.amount).sum = 35 ∧
    (calculate baseState).taxableFees ≠
      ((configFees.filter fun f => f.taxable).map fun f => f.amount).sum := by
  refine ⟨?_, ?_, ?_⟩
  · norm_num [calculate, feesDocPrep, feesErt]
  · norm_num [configFees, feesDocPrep, feesErt, feesTitle, feesRegistration, feesCookCounty]
  · norm_num [calculate, configFees, feesDocPrep, feesErt, feesTitle, feesRegistration,
      feesCookCounty]

/-- Claim C4 (amended): `calculate` selects the fee line items by identity,
not by their taxable flags — the taxable-fee total is always the doc-prep
amount plus the ERT amount, and the non-taxable-fee total is always the title
amount plus the registration amount, plus the Cook County fee amount exactly
when the transaction is in Cook County. -/
theorem fees_hardcoded (s : CalcState) :
    (calculate s).taxableFees = feesDocPrep.amount + feesErt.amount ∧
    (calculate s).nonTaxableFees =
      feesTitle.amount + feesRegistration.amount +
        (if s.isCookCounty then feesCookCounty.amount else 0) :=
  ⟨rfl, rfl⟩

/-- Claim C6: `calculateMonthlyPayment` returns 0 for a non-positive
principal, the straight-line quotient when the monthly rate is zero, the
standard annuity value when the denominator is non-degenerate, and 0 instead
of a non-finite value at the formula's singularity. -/
theorem calculateMonthlyPayment_spec (P apr : ℚ) (n : ℕ) :
    (P ≤ 0 → calculateMonthlyPayment P apr n = 0) ∧
    (0 < P → apr / 100 / 12 = 0 → calculateMonthlyPayment P apr n = P / n) ∧
    (0 < P → apr / 100 / 12 ≠ 0 → (1 + apr / 100 / 12) ^ n - 1 ≠ 0 →
      calculateMonthlyPayment P apr n =
        P * (apr / 100 / 12 * (1 + apr / 100 / 12) ^ n) /
          ((1 + apr / 100 / 12) ^ n - 1)) ∧
    (0 < P → apr / 100 / 12 ≠ 0 → (1 + apr / 100 / 12) ^ n - 1 = 0 →
      calculateMonthlyPayment P apr n = 0) := by
  unfold calculateMonthlyPayment
  refine ⟨fun h0 => by rw [if_pos h0], fun hP hz => ?_, fun hP hz hden => ?_,
    fun hP hz hden => ?_⟩
  · rw [if_neg (not_le.mpr hP)]
    dsimp only
    rw [if_pos hz]
  · rw [if_neg (not_le.mpr hP)]
    dsimp only
    rw [if_neg hz]
  · rw [if_neg (not_le.mpr hP)]
    dsimp only
    rw [if_neg hz, hden, div_zero]

/-- Concrete instance of `calculateMonthlyPayment_spec`: the zero-rate branch
divides the principal evenly, and a zero principal yields a zero payment. -/
theorem calculateMonthlyPayment_spec_witness :
    calculateMonthlyPayment 20000 0 60 = 20000 / 60 ∧
      calculateMonthlyPayment 0 6.49 60 = 0 :=
  ⟨(calculateMonthlyPayment_spec 20000 0 60).2.1 (by norm_num) (by norm_num),
   (calculateMonthlyPayment_spec 0 6.49 60).1 (by norm_num)⟩

/-- Claim C8: the finance-versus-cash-down verdict is shown exactly when both
the cash kept invested and the amount financed are positive, and it reports
financing as favorable exactly when the after-tax investment profit minus the
total loan interest is non-negative, cash-down otherwise. -/
theorem dpVerdict_spec (v : DpVerdictInput) :
    (dpVerdict v = none ↔ v.cashInvested ≤ 0 ∨ v.amountFinanced ≤ 0) ∧
    (dpVerdict v = some true ↔ 0 < v.cashInvested ∧ 0 < v.amountFinanced ∧
      0 ≤ v.investmentValueNet - v.cashInvested - v.totalInterest) ∧
    (dpVerdict v = some false ↔ 0 < v.cashInvested ∧ 0 < v.amountFinanced ∧
      v.investmentValueNet - v.cashInvested - v.totalInterest < 0) := by
  unfold dpVerdict
  by_cases h : v.cashInvested ≤ 0 ∨ v.amountFinanced ≤ 0
  · rw [if_pos h]
    refine ⟨iff_of_true rfl h, ?_, ?_⟩ <;>
      exact ⟨fun hf => absurd hf (by simp),
        fun hc => absurd h (by rcases hc with ⟨h1, h2, -⟩; push_neg; exact ⟨h1, h2⟩)⟩
  · rw [if_neg h]
    push_neg at h
    obtain ⟨h1, h2⟩ := h
    refine ⟨⟨fun hf => absurd hf (by simp), fun hc => ?_⟩, ?_, ?_⟩
    · rcases hc with hc | hc <;> linarith
    · simp only [Option.some.injEq, decide_eq_true_eq]
      exact ⟨fun hb => ⟨h1, h2, hb⟩, fun hb => hb.2.2⟩
    · simp only [Option.some.injEq, decide_eq_false_iff_not, not_le]
      exact ⟨fun hb => ⟨h1, h2, hb⟩, fun hb => hb.2.2⟩

/-- Claim C9: in every `dpCalculate` result the amount financed coincides with
the cash assumed invested and both are non-negative — the down payment is
clamped to the total due first, so the subsequent floor at zero is a no-op. -/
theorem dpLoan_financed_eq_invested (s : CalcState) :
    (dpCalculateLoan s).amountFinanced = (dpCalculateLoan s).cashInvested ∧
    0 ≤ (dpCalculateLoan s).cashInvested := by
  have h : min s.downPayment (calculate s).outTheDoor ≤ (calculate s).outTheDoor :=
    min_le_right _ _
  have hcash : (dpCalculateLoan s).cashInvested =
      (calculate s).outTheDoor - min s.downPayment (calculate s).outTheDoor := rfl
  have hfin : (dpCalculateLoan s).amountFinanced =
      max 0 ((calculate s).outTheDoor - min s.downPayment (calculate s).outTheDoor) := rfl
  constructor
  · rw [hfin, hcash, max_eq_right (by linarith)]
  · rw [hcash]; linarith

lemma min_eq_sub_max (a b : ℚ) : min a b = b - max 0 (b - a) := by
  rcases le_total a b with h | h
  · rw [min_eq_left h, max_eq_right (by linarith)]; ring
  · rw [min_eq_right h, max_eq_left (by linarith)]; ring

/-- Claim C10: for a non-negative trade value the displayed trade-in tax
savings, `min(tradeValue, taxableBeforeTrade) x taxRate`, equals the actual
tax reduction `(taxableBeforeTrade - taxableAmount) x taxRate` produced by
the floored trade-in credit. -/
theorem tradeTaxSavings_eq (s : CalcState) (h : 0 ≤ s.tradeValue) :
    (calculate s).tradeTaxSavings =
      ((calculate s).taxableBeforeTrade - (calculate s).taxableAmount) * s.taxRate := by
  have h1 : (calculate s).tradeTaxSavings =
      min s.tradeValue (calculate s).taxableBeforeTrade * s.taxRate := rfl
  have h2 : (calculate s).taxableAmount =
      max 0 ((calculate s).taxableBeforeTrade - s.tradeValue) := rfl
  rw [h1, h2, min_eq_sub_max]

/-- Concrete instance of `tradeTaxSavings_eq` at a 5000 trade-in. -/
theorem tradeTaxSavings_eq_witness :
    (calculate { baseState with tradeValue := 5000 }).tradeTaxSavings =
      ((calculate { baseState with tradeValue := 5000 }).taxableBeforeTrade -
        (calculate { baseState with tradeValue := 5000 }).taxableAmount) *
        ({ baseState with tradeValue := 5000 } : CalcState).taxRate :=
  tradeTaxSavings_eq { baseState with tradeValue := 5000 } (by norm_num)

lemma one_le_pow_one_add (i : ℚ) (hi : 0 ≤ i) (n : ℕ) : (1 : ℚ) ≤ (1 + i) ^ n := by
  induction n with
  | zero => simp
  | succ n ih => rw [pow_succ]; nlinarith

lemma geom_pow_bound (i : ℚ) (hi : 0 ≤ i) (n : ℕ) :
    (1 + i) ^ n - 1 ≤ (n : ℚ) * i * (1 + i) ^ n := by
  induction n with
  | zero => simp
  | succ n ih =>
    have hA := one_le_pow_one_add i hi n
    have hi1 : (0 : ℚ) ≤ 1 + i := by linarith
    have h2 := mul_le_mul_of_nonneg_right ih hi1
    have h3 : (1 : ℚ) ≤ (1 + i) ^ n * (1 + i) := by nlinarith
    have h4 : i ≤ i * ((1 + i) ^ n * (1 + i)) := by nlinarith
    rw [pow_succ]
    push_cast
    nlinarith [h2, h4]

lemma annuity_payment_mul_ge (P i : ℚ) (n : ℕ) (hn : 1 ≤ n) (hP : 0 ≤ P) (hi : 0 < i) :
    P ≤ P * (i * (1 + i) ^ n) / ((1 + i) ^ n - 1) * (n : ℚ) := by
  have hn1 : (1 : ℚ) ≤ (n : ℚ) := by exact_mod_cast hn
  have hb := one_add_mul_le_pow (by linarith : (-2 : ℚ) ≤ i) n
  have hden : (0 : ℚ) < (1 + i) ^ n - 1 := by nlinarith
  rw [div_mul_eq_mul_div, le_div_iff₀ hden]
  have hg := geom_pow_bound i (le_of_lt hi) n
  nlinarith [mul_le_mul_of_nonneg_left hg hP]

lemma calculateMonthlyPayment_mul_ge (P apr : ℚ) (n : ℕ)
    (hn : 1 ≤ n) (hP : 0 ≤ P) (hapr : 0 ≤ apr) :
    P ≤ calculateMonthlyPayment P apr n * (n : ℚ) := by
  unfold calculateMonthlyPayment
  by_cases h0 : P ≤ 0
  · rw [if_pos h0]
    have hP0 : P = 0 := le_antisymm h0 hP
    simp [hP0]
  · rw [if_neg h0]
    dsimp only
    by_cases hz : apr / 100 / 12 = 0
    · rw [if_pos hz, div_mul_cancel₀]
      exact Nat.cast_ne_zero.mpr (by omega)
    · rw [if_neg hz]
      have hnn : 0 ≤ apr / 100 / 12 := by positivity
      have hi : 0 < apr / 100 / 12 := lt_of_le_of_ne hnn (Ne.symm hz)
      exact annuity_payment_mul_ge P _ n hn hP hi

/-- Claim C5: for both engines the reported total interest equals the monthly
payment times the number of months minus the financed principal floored at
zero, and is never negative — in `dpCalculate` the floor is explicit, and in
the per-term payment table of `calculate` the exact difference is already
non-negative for any non-negative APR (in particular it is exactly zero when
the principal is zero). -/
theorem totalInterest_floored (s : CalcState) (term : ℕ) (hterm : 1 ≤ term)
    (hapr : 0 ≤ (getAprForTerm s term).rate) :
    ((calcPayment s term).totalInterest =
        max 0 ((calcPayment s term).payment * (term : ℚ) - (calculate s).amountToFinance) ∧
      0 ≤ (calcPayment s term).totalInterest) ∧
    ((dpCalculateLoan s).totalInterest =
        max 0 ((dpCalculateLoan s).monthlyPayment * (s.selectedTerm : ℚ) -
          (dpCalculateLoan s).amountFinanced) ∧
      0 ≤ (dpCalculateLoan s).totalInterest) := by
  have hA : 0 ≤ (calculate s).amountToFinance := le_max_left _ _
  have hge := calculateMonthlyPayment_mul_ge (calculate s).amountToFinance
    (getAprForTerm s term).rate term hterm hA hapr
  have hti : (calcPayment s term).totalInterest =
      (calcPayment s term).payment * (term : ℚ) - (calculate s).amountToFinance := rfl
  have hpay : (calcPayment s term).payment =
      calculateMonthlyPayment (calculate s).amountToFinance (getAprForTerm s term).rate term :=
    rfl
  refine ⟨⟨?_, ?_⟩, ?_, le_max_left _ _⟩
  · rw [hti, max_eq_right]
    rw [hpay]
    linarith
  · rw [hti, hpay]
    linarith
  · rfl

/-- Concrete instance of `totalInterest_floored` at the representative state
and the 60-month term. -/
theorem totalInterest_floored_witness :
    ((calcPayment baseState 60).totalInterest =
        max 0 ((calcPayment baseState 60).payment * (60 : ℚ) -
          (calculate baseState).amountToFinance) ∧
      0 ≤ (calcPayment baseState 60).totalInterest) ∧
    ((dpCalculateLoan baseState).totalInterest =
        max 0 ((dpCalculateLoan baseState).monthlyPayment * (baseState.selectedTerm : ℚ) -
          (dpCalculateLoan baseState).amountFinanced) ∧
      0 ≤ (dpCalculateLoan baseState).totalInterest) :=
  totalInterest_floored baseState 60 (by norm_num)
    (by norm_num [getAprForTerm, baseState, creditTierRate])

lemma addonTaxableSum_append (l1 l2 : List Addon) :
    addonTaxableSum (l1 ++ l2) = addonTaxableSum l1 + addonTaxableSum l2 := by
  simp [addonTaxableSum]

lemma addonNonTaxableSum_append (l1 l2 : List Addon) :
    addonNonTaxableSum (l1 ++ l2) = addonNonTaxableSum l1 + addonNonTaxableSum l2 := by
  simp [addonNonTaxableSum]

lemma addonTaxableSum_single (a : Addon) :
    addonTaxableSum [a] = if a.taxable then a.price else 0 := by
  by_cases h : a.taxable <;> simp [addonTaxableSum, h]

lemma addonNonTaxableSum_single (a : Addon) :
    addonNonTaxableSum [a] = if a.taxable then 0 else a.price := by
  by_cases h : a.taxable <;> simp [addonNonTaxableSum, h]

lemma calculate_outTheDoor_eq (s : CalcState) :
    (calculate s).outTheDoor =
      max 0 (s.vehiclePrice - discountSum s.discounts) +
        (addonTaxableSum s.addons + addonNonTaxableSum s.addons) +
        (feesDocPrep.amount + feesErt.amount) +
        max 0 (max 0 (s.vehiclePrice - discountSum s.discounts) + addonTaxableSum s.addons +
          (feesDocPrep.amount + feesErt.amount) - s.tradeValue) * s.taxRate +
        (feesTitle.amount + feesRegistration.amount +
          (if s.isCookCounty then feesCookCounty.amount else 0)) -
        (s.tradeValue - s.tradeOwed) := rfl

lemma otd_core_mono (D T1 T2 NT F NTF tv td rate p1 p2 : ℚ)
    (htax : 0 ≤ rate) (hp : p1 ≤ p2) (hT : T1 ≤ T2) :
    max 0 (p1 - D) + (T1 + NT) + F +
        max 0 (max 0 (p1 - D) + T1 + F - tv) * rate + NTF - (tv - td) ≤
      max 0 (p2 - D) + (T2 + NT) + F +
        max 0 (max 0 (p2 - D) + T2 + F - tv) * rate + NTF - (tv - td) := by
  have h1 : max 0 (p1 - D) ≤ max 0 (p2 - D) := max_le_max le_rfl (by linarith)
  have h2 : max 0 (max 0 (p1 - D) + T1 + F - tv) ≤
      max 0 (max 0 (p2 - D) + T2 + F - tv) := max_le_max le_rfl (by linarith)
  have h3 := mul_le_mul_of_nonneg_right h2 htax
  linarith

/-- Claim C7: with a non-negative tax rate the out-the-door price is
monotonically non-decreasing in the vehicle price and in the price of any
individual taxable add-on, all other inputs held fixed, despite the floors on
selling price and taxable amount. -/
theorem outTheDoor_monotone (s : CalcState) (htax : 0 ≤ s.taxRate) :
    (∀ p1 p2 : ℚ, p1 ≤ p2 →
      (calculate { s with vehiclePrice := p1 }).outTheDoor ≤
        (calculate { s with vehiclePrice := p2 }).outTheDoor) ∧
    (∀ pre post : List Addon, ∀ a : Addon, a.taxable = true → ∀ q1 q2 : ℚ, q1 ≤ q2 →
      (calculate { s with addons := pre ++ [{ a with price := q1 }] ++ post }).outTheDoor ≤
        (calculate { s with addons := pre ++ [{ a with price := q2 }] ++ post }).outTheDoor) := by
  constructor
  · intro p1 p2 hp
    rw [calculate_outTheDoor_eq, calculate_outTheDoor_eq]
    dsimp only
    exact otd_core_mono _ _ _ _ _ _ _ _ _ _ _ htax hp le_rfl
  · intro pre post a ha q1 q2 hq
    rw [calculate_outTheDoor_eq, calculate_outTheDoor_eq]
    dsimp only
    simp only [addonTaxableSum_append, addonNonTaxableSum_append,
      addonTaxableSum_single, addonNonTaxableSum_single, ha, if_true]
    exact otd_core_mono _ _ _ _ _ _ _ _ _ _ _ htax le_rfl (by linarith)

/-- Concrete instance of `outTheDoor_monotone`: raising the vehicle price
from 10000 to 20000 does not lower the out-the-door price. -/
theorem outTheDoor_monotone_witness :
    (calculate { baseState with vehiclePrice := 10000 }).outTheDoor ≤
      (calculate { baseState with vehiclePrice := 20000 }).outTheDoor :=
  (outTheDoor_monotone baseState
    (by norm_num [baseState, defaultTaxRate])).1 10000 20000 (by norm_num)
